import Mathlib

/-!
Verification of the ftth-ai-mvp log-anomaly detector (`src/ai_detector.py`).

Numeric model: Python floats are modelled as rationals (ℚ).  Every float the
program manipulates (the fixed rule weights 0.35/0.35/0.20/0.30, rates that are
integer counts divided by the window length 5, thresholds 0.10/1.01, parsed
decimal throughput literals) is an exact decimal, and the claims only concern
orderings and clamping at these coarse magnitudes, where float and rational
arithmetic agree.
-/

namespace FtthAi

/-- Window length in minutes, the module constant WINDOW_MINUTES = 5. -/
def WINDOW_MINUTES : Nat := 5

/-- Alert threshold, the module constant SCORE_THRESHOLD = 0.10. -/
def SCORE_THRESHOLD : ℚ := 0.10

/-- The metrics dictionary built by compute_metrics, with the source dict keys
as field names. -/
structure Metrics where
  total : Nat
  log_rate : ℚ
  security : Nat
  sec_rate : ℚ
  errors : Nat
  err_rate : ℚ
  thr_avg : Option ℚ
deriving Repr, DecidableEq

/-- The rule-4 guard of simple_score: thr_avg is present and below 0.25. -/
def lowThrB (m : Metrics) : Bool :=
  match m.thr_avg with
  | some v => decide (v < 0.25)
  | none => false

/-- Embedding of simple_score: four sequential additive rules updating a
running score and reasons list, then the final clamp at 1.0. -/
def simple_score (m : Metrics) : ℚ × List String :=
  let score : ℚ := 0.0
  let reasons : List String := []
  let sr1 : ℚ × List String :=
    if m.log_rate ≥ 20 then (score + 0.35, reasons ++ ["high_log_rate"])
    else (score, reasons)
  let sr2 : ℚ × List String :=
    if m.sec_rate ≥ 5 then (sr1.1 + 0.35, sr1.2 ++ ["high_security_rate"])
    else sr1
  let sr3 : ℚ × List String :=
    if m.err_rate ≥ 2 then (sr2.1 + 0.20, sr2.2 ++ ["high_error_rate"])
    else sr2
  let sr4 : ℚ × List String :=
    match m.thr_avg with
    | some v => if v < 0.25 then (sr3.1 + 0.30, sr3.2 ++ ["low_throughput"]) else sr3
    | none => sr3
  (if sr4.1 > 1.0 then 1.0 else sr4.1, sr4.2)

/-- The all-zero metrics snapshot, as produced for an empty window. -/
def mZero : Metrics := ⟨0, 0, 0, 0, 0, 0, none⟩

/-- Splits a character list into its maximal leading run of decimal digits and
the rest, the semantics of a greedy leading `[0-9]*` scan. -/
def takeDigits : List Char → List Char × List Char
  | [] => ([], [])
  | c :: cs =>
    if c.isDigit then (c :: (takeDigits cs).1, (takeDigits cs).2)
    else ([], c :: cs)

/-- Decimal value of a digit run. -/
def digitsToNat (cs : List Char) : Nat :=
  cs.foldl (fun a c => a * 10 + (c.toNat - 48)) 0

/-- Consumes one optional leading sign, returning the sign factor and the
remaining characters. -/
def stripSign (cs : List Char) : ℚ × List Char :=
  match cs with
  | [] => (1, [])
  | c :: t => if c = '-' then (-1, t) else if c = '+' then (1, t) else (1, c :: t)

/-- Magnitude part of the float() model: an unsigned decimal literal, either
digits alone or digits around a single dot with at least one digit overall. -/
def pyFloatMag (cs : List Char) : Option ℚ :=
  match takeDigits cs with
  | (a, []) => if a = [] then none else some ((digitsToNat a : ℚ))
  | (a, c :: rest2) =>
    if c = '.' then
      match takeDigits rest2 with
      | (b, []) =>
        if a = [] && b = [] then none
        else some ((digitsToNat a : ℚ) + (digitsToNat b : ℚ) / 10 ^ b.length)
      | (_, _ :: _) => none
    else none

/-- Models the builtin float() on the strings this program can pass it: an
optional sign followed by a plain decimal literal.  The builtin also accepts
surrounding whitespace, exponents, underscores and inf/nan spellings; none of
those can occur in a capture of RE_THROUGHPUT, whose text is digits and one
dot, so they are left out of the model. -/
def pyFloat (cs : List Char) : Option ℚ :=
  match stripSign cs with
  | (s, t) => (pyFloatMag t).map (fun q => s * q)

/-- Drops the literal pattern from the front of the text, or fails. -/
def dropLit : List Char → List Char → Option (List Char)
  | [], t => some t
  | _ :: _, [] => none
  | p :: ps, c :: cs => if c = p then dropLit ps cs else none

/-- The regex fragment `[0-9]*\.?[0-9]+` with leftmost-greedy backtracking
semantics, anchored at the start of the text: returns the matched characters.
A greedy digit run, then an optional dot only kept when digits follow it,
with backtracking into the leading run when the trailing `[0-9]+` would
otherwise be empty. -/
def matchNumber (cs : List Char) : Option (List Char) :=
  match takeDigits cs with
  | (a, []) => if a = [] then none else some a
  | (a, c :: rest2) =>
    if c = '.' then
      match takeDigits rest2 with
      | ([], _) => if a = [] then none else some a
      | (b1 :: bs, _) => some (a ++ '.' :: b1 :: bs)
    else if a = [] then none else some a

/-- The literal part of RE_THROUGHPUT. -/
def throughputPat : List Char := "Throughput=".data

/-- RE_THROUGHPUT.search: scans positions left to right and returns the first
capture of `Throughput=([0-9]*\.?[0-9]+)`. -/
def searchThroughput : List Char → Option (List Char)
  | [] => none
  | c :: cs =>
    match dropLit throughputPat (c :: cs) with
    | some rest =>
      match matchNumber rest with
      | some g => some g
      | none => searchThroughput cs
    | none => searchThroughput cs

/-- Python str.lower(): per-character lowering, which agrees with the builtin
on the ASCII text this program handles. -/
def pyLower (s : String) : String := ⟨s.data.map Char.toLower⟩

/-- The Python substring test `need in hay`. -/
def containsSub (hay need : List Char) : Bool :=
  match hay with
  | [] => need.isEmpty
  | _ :: t => (dropLit need hay).isSome || containsSub t need

/-- The security heuristic of compute_metrics, applied to the lower-cased
line. -/
def isSecurityLine (l : String) : Bool :=
  containsSub l.data "security:".data || containsSub l.data "auth".data

/-- The error heuristic of compute_metrics, applied to the lower-cased line. -/
def isErrorLine (l : String) : Bool :=
  containsSub l.data "error".data || containsSub l.data "failed".data ||
    containsSub l.data "deny".data || containsSub l.data "blocked".data

/-- The throughput extraction of compute_metrics for one line: the regex runs
on the original line text, and a successful capture is converted with
float(). -/
def lineThroughput (line : String) : Option ℚ :=
  (searchThroughput line.data).bind pyFloat

/-- The loop body of compute_metrics: one line updates the security count, the
error count and the accumulated throughput values.  The two counters test the
lower-cased text while the regex searches the original line, exactly as in the
source. -/
def scanLine (acc : Nat × Nat × List ℚ) (p : Int × String) : Nat × Nat × List ℚ :=
  let l := pyLower p.2
  (if isSecurityLine l then acc.1 + 1 else acc.1,
   if isErrorLine l then acc.2.1 + 1 else acc.2.1,
   match lineThroughput p.2 with
   | some v => acc.2.2 ++ [v]
   | none => acc.2.2)

/-- Embedding of compute_metrics: a single pass over the (timestamp, text)
pairs, then rates over max(WINDOW_MINUTES, 1) and the optional throughput
average. -/
def compute_metrics (lines : List (Int × String)) : Metrics :=
  let total := lines.length
  let acc := lines.foldl scanLine (0, 0, [])
  let minutes : ℚ := max (WINDOW_MINUTES : ℚ) 1
  { total := total
    log_rate := (total : ℚ) / minutes
    security := acc.1
    sec_rate := (acc.1 : ℚ) / minutes
    errors := acc.2.1
    err_rate := (acc.2.1 : ℚ) / minutes
    thr_avg :=
      if acc.2.2.isEmpty then none
      else some (acc.2.2.sum / (acc.2.2.length : ℚ)) }

/-- The metrics computer as the claim words it, with the throughput pattern
applied to the lower-cased text instead of the original line; used only to
compare against the code. -/
def compute_metrics_claimC8 (lines : List (Int × String)) : Metrics :=
  let total := lines.length
  let security := lines.countP (fun p => isSecurityLine (pyLower p.2))
  let errors := lines.countP (fun p => isErrorLine (pyLower p.2))
  let thr_vals := lines.filterMap (fun p => lineThroughput (pyLower p.2))
  let minutes : ℚ := max (WINDOW_MINUTES : ℚ) 1
  { total := total
    log_rate := (total : ℚ) / minutes
    security := security
    sec_rate := (security : ℚ) / minutes
    errors := errors
    err_rate := (errors : ℚ) / minutes
    thr_avg :=
      if thr_vals.isEmpty then none
      else some (thr_vals.sum / (thr_vals.length : ℚ)) }

/-- Closed-form restatement of the metrics computer for the refinement claim:
per-line counts via countP, throughput values via filterMap. -/
def compute_metrics_spec (lines : List (Int × String)) : Metrics :=
  let total := lines.length
  let security := lines.countP (fun p => isSecurityLine (pyLower p.2))
  let errors := lines.countP (fun p => isErrorLine (pyLower p.2))
  let thr_vals := lines.filterMap (fun p => lineThroughput p.2)
  let minutes : ℚ := max (WINDOW_MINUTES : ℚ) 1
  { total := total
    log_rate := (total : ℚ) / minutes
    security := security
    sec_rate := (security : ℚ) / minutes
    errors := errors
    err_rate := (errors : ℚ) / minutes
    thr_avg :=
      if thr_vals.isEmpty then none
      else some (thr_vals.sum / (thr_vals.length : ℚ)) }

/-- JSON values, the shape of what response.json() can return. -/
inductive Json where
  | null
  | bool (b : Bool)
  | num (q : ℚ)
  | str (s : String)
  | arr (xs : List Json)
  | obj (kvs : List (String × Json))
deriving Repr

/-- Python dict.get with a default: returns the value or the default on a
dict, raises AttributeError on every other value. -/
def pyGet (j : Json) (key : String) (dflt : Json) : Except String Json :=
  match j with
  | .obj kvs => .ok ((kvs.lookup key).getD dflt)
  | _ => .error "AttributeError: get"

/-- Python iteration over a value: a list yields its elements, a string its
characters, a dict its keys; other values raise TypeError. -/
def iterJson : Json → Except String (List Json)
  | .arr xs => .ok xs
  | .str s => .ok (s.data.map (fun c => .str (String.singleton c)))
  | .obj kvs => .ok (kvs.map (fun kv => .str kv.1))
  | _ => .error "TypeError: not iterable"

/-- Python unpacking `a, b = v`: succeeds on a two-element list, a two
character string or a two-key dict, raises ValueError on other lengths and
TypeError on non-iterables. -/
def unpack2 : Json → Except String (Json × Json)
  | .arr [a, b] => .ok (a, b)
  | .arr _ => .error "ValueError: unpack"
  | .str s =>
    match s.data with
    | [c1, c2] => .ok (.str (String.singleton c1), .str (String.singleton c2))
    | _ => .error "ValueError: unpack"
  | .obj [kv1, kv2] => .ok (.str kv1.1, .str kv2.1)
  | .obj _ => .error "ValueError: unpack"
  | _ => .error "TypeError: not iterable"

/-- Models the builtin int() on strings as this program can receive them: an
optional sign then decimal digits.  The builtin also strips whitespace and
accepts underscores; a Loki timestamp contains neither, so they are left out
of the model. -/
def pyIntOfStr (s : String) : Except String Int :=
  match s.data with
  | '-' :: ds =>
    if ds ≠ [] ∧ ds.all Char.isDigit then .ok (-(digitsToNat ds : Int))
    else .error "ValueError: int"
  | '+' :: ds =>
    if ds ≠ [] ∧ ds.all Char.isDigit then .ok ((digitsToNat ds : Int))
    else .error "ValueError: int"
  | ds =>
    if ds ≠ [] ∧ ds.all Char.isDigit then .ok ((digitsToNat ds : Int))
    else .error "ValueError: int"

/-- The builtin int() on a JSON value: strings are parsed, numbers truncate
toward zero, booleans give 0 or 1, everything else raises TypeError. -/
def pyInt : Json → Except String Int
  | .str s => pyIntOfStr s
  | .num q => .ok (Int.tdiv q.num (q.den : Int))
  | .bool b => .ok (if b then 1 else 0)
  | _ => .error "TypeError: int"

/-- Embedding of extract_lines: data and result default to empty containers
through dict.get, then every stream contributes its values as (int(ts_ns),
line) pairs. -/
def extract_lines (loki_json : Json) : Except String (List (Int × Json)) := do
  let data ← pyGet loki_json "data" (.obj [])
  let result ← pyGet data "result" (.arr [])
  let streams ← iterJson result
  streams.foldlM
    (fun out stream => do
      let values ← pyGet stream "values" (.arr [])
      let vs ← iterJson values
      vs.foldlM
        (fun out2 v => do
          let (ts, line) ← unpack2 v
          let n ← pyInt ts
          pure (out2 ++ [(n, line)]))
        out)
    []

/-- One console line or one syslog datagram produced during a cycle. -/
inductive Event where
  | logged (s : String)
  | datagram (s : String)
deriving Repr, DecidableEq

/-- Bool test for datagram events. -/
def isDatagram : Event → Bool
  | .datagram _ => true
  | .logged _ => false

/-- The environment one cycle runs in: the outcome of the Loki query, the
formatted local timestamp send_syslog puts in front of the datagram, the
ISO timestamp of the status print, and whether the UDP sendto of a given
datagram line succeeds (false models sendto raising a socket error). -/
structure CycleEnv where
  fetchResult : Except String Json
  tsPrefix : String
  isoNow : String
  sendOk : String → Bool

/-- The single datagram line built by send_syslog, with the fixed host and
tag tokens. -/
def syslogLine (env : CycleEnv) (message : String) : String :=
  env.tsPrefix ++ " ai-engine ai-detector: " ++ message

/-- Embedding of send_syslog: formats the line and transmits it as one
datagram.  The source closes the socket in a finally block but has no except
around sendto, so a socket error propagates to the caller. -/
def send_syslog (env : CycleEnv) (message : String) : Except String String :=
  let line := syslogLine env message
  if env.sendOk line then .ok line else .error "socket error"

/-- Models the .2f formatting of the nonnegative scores and rates this
program prints: round half up to two decimals.  The builtin rounds ties to
even; no claim inspects this text. -/
def fmt2 (q : ℚ) : String :=
  let c : Int := ⌊q * 100 + 1 / 2⌋
  let n := c.natAbs
  (if c < 0 then "-" else "") ++ toString (n / 100) ++ "." ++
    (if n % 100 < 10 then "0" else "") ++ toString (n % 100)

/-- Models str() of the optional thr_avg field: None or the number, the
number rendered as an exact rational; no claim inspects this text. -/
def pyOptRepr : Option ℚ → String
  | none => "None"
  | some q => toString q.num ++ "/" ++ toString q.den

/-- Models the list repr in the reasons= field of the status line; no claim
inspects this text. -/
def pyListRepr (xs : List String) : String :=
  "[" ++ String.intercalate ", " (xs.map (fun s => "\x27" ++ s ++ "\x27")) ++ "]"

/-- The per-cycle console line of main. -/
def statusLine (iso : String) (m : Metrics) (score : ℚ) (reasons : List String) : String :=
  "[" ++ iso ++ "Z] total=" ++ toString m.total ++ " log_rate=" ++ fmt2 m.log_rate ++
    "/min sec_rate=" ++ fmt2 m.sec_rate ++ "/min err_rate=" ++ fmt2 m.err_rate ++
    "/min thr_avg=" ++ pyOptRepr m.thr_avg ++ " score=" ++ fmt2 score ++
    " reasons=" ++ pyListRepr reasons

/-- The AI_ALERT message of a threshold-crossing cycle. -/
def alertMsg (m : Metrics) (score : ℚ) (reasons : List String) : String :=
  "AI_ALERT severity=high score=" ++ fmt2 score ++ " window=" ++
    toString WINDOW_MINUTES ++ "m total=" ++ toString m.total ++ " sec=" ++
    toString m.security ++ " errors=" ++ toString m.errors ++ " thr_avg=" ++
    pyOptRepr m.thr_avg ++ " reason=\"" ++ String.intercalate "," reasons ++ "\""

/-- The fixed-content AI_ALERT message of the error handler. -/
def errAlertMsg (e : String) : String :=
  "AI_ALERT severity=medium score=0.50 reason=\"ai_engine_error " ++ e ++ "\""

/-- compute_metrics calls line.lower() on each extracted line, and a
non-string line raises AttributeError there; the conversion is modelled up
front so the fold itself stays pure. -/
def linesToStr : List (Int × Json) → Except String (List (Int × String))
  | [] => .ok []
  | (n, Json.str s) :: rest => (linesToStr rest).map (fun l => (n, s) :: l)
  | (_, _) :: _ => .error "AttributeError: lower"

/-- The try block of one cycle of main: fetch, extract, compute metrics,
score, print the status line, and send the threshold alert when the score
reaches the threshold.  Returns the events produced before any exception and
the exception, if one was raised. -/
def try_body (env : CycleEnv) (threshold : ℚ) : List Event × Option String :=
  match env.fetchResult with
  | .error e => ([], some e)
  | .ok data =>
    match extract_lines data with
    | .error e => ([], some e)
    | .ok jlines =>
      match linesToStr jlines with
      | .error e => ([], some e)
      | .ok lines =>
        let metrics := compute_metrics lines
        let sr := simple_score metrics
        let status := Event.logged (statusLine env.isoNow metrics sr.1 sr.2)
        if sr.1 ≥ threshold then
          match send_syslog env (alertMsg metrics sr.1 sr.2) with
          | .ok line =>
            ([status, Event.datagram line,
              Event.logged (">>> SENT: " ++ alertMsg metrics sr.1 sr.2)], none)
          | .error e => ([status], some e)
        else ([status], none)

/-- One full cycle of main: the try block, then on failure the except
handler, which prints the error and sends the fixed medium-severity alert.
A socket error raised by that send has no handler; the second component
carries the uncaught exception that ends the loop. -/
def run_cycle (env : CycleEnv) (threshold : ℚ) : List Event × Option String :=
  match try_body env threshold with
  | (evs, none) => (evs, none)
  | (evs, some e) =>
    match send_syslog env (errAlertMsg e) with
    | .ok line => (evs ++ [Event.logged ("ERROR: " ++ e), Event.datagram line], none)
    | .error e2 => (evs ++ [Event.logged ("ERROR: " ++ e)], some e2)

/-- The while loop of main, run for a given number of cycles with one
environment per cycle; it stops early exactly when a cycle ends in an
uncaught exception. -/
def run_loop (envs : Nat → CycleEnv) (threshold : ℚ) : Nat → List Event × Option String
  | 0 => ([], none)
  | n + 1 =>
    match run_loop envs threshold n with
    | (evs, some e) => (evs, some e)
    | (evs, none) =>
      let r := run_cycle (envs n) threshold
      (evs ++ r.1, r.2)

/-- The line list a cycle computes when fetch, extraction and lowering all
succeed. -/
def cycleLines (env : CycleEnv) : Option (List (Int × String)) :=
  match env.fetchResult with
  | .error _ => none
  | .ok data =>
    match extract_lines data with
    | .error _ => none
    | .ok jlines => (linesToStr jlines).toOption

/-- A Loki response with a present but empty result array. -/
def jsonEmptyResp : Json := .obj [("data", .obj [("result", .arr [])])]

/-- A cycle whose fetch raises and whose datagram sends succeed. -/
def envC3ok : CycleEnv :=
  ⟨.error "read timeout", "Oct 12 03:00:00", "2026-10-12T03:00:00", fun _ => true⟩

/-- A cycle whose fetch raises and whose datagram sends raise a socket
error. -/
def envC3 : CycleEnv :=
  ⟨.error "read timeout", "Oct 12 03:00:00", "2026-10-12T03:00:00", fun _ => false⟩

/-- A cycle whose fetch raises with a different message and whose datagram
sends raise a socket error. -/
def envC4 : CycleEnv :=
  ⟨.error "connection refused", "Oct 12 03:00:00", "2026-10-12T03:00:00", fun _ => false⟩

/-- A cycle whose fetch succeeds with an empty result and whose datagram
sends succeed. -/
def envW : CycleEnv :=
  ⟨.ok jsonEmptyResp, "Oct 12 03:00:00", "2026-10-12T03:00:00", fun _ => true⟩

/-- Closed form of simple_score: the score is the clamped sum of the weights of
the rules that fire, and the reasons are the fired tags in rule order. -/
lemma simple_score_eq (m : Metrics) :
    simple_score m =
      (min ((if (20:ℚ) ≤ m.log_rate then (0.35:ℚ) else 0) +
            (if (5:ℚ) ≤ m.sec_rate then (0.35:ℚ) else 0) +
            (if (2:ℚ) ≤ m.err_rate then (0.20:ℚ) else 0) +
            (if lowThrB m then (0.30:ℚ) else 0)) 1,
       (if (20:ℚ) ≤ m.log_rate then ["high_log_rate"] else []) ++
       (if (5:ℚ) ≤ m.sec_rate then ["high_security_rate"] else []) ++
       (if (2:ℚ) ≤ m.err_rate then ["high_error_rate"] else []) ++
       (if lowThrB m then ["low_throughput"] else [])) := by
  rcases hthr : m.thr_avg with _ | v <;>
    simp only [simple_score, lowThrB, hthr, ge_iff_le, decide_eq_true_eq] <;>
    split_ifs <;> simp_all <;> norm_num at *

/-- C1: simple_score evaluates the four additive rules in fixed order,
returning the weight sum clamped at 1.0 and exactly the fired tags in rule
order. -/
theorem C1_score_rules (m : Metrics) :
    simple_score m =
      (min ((if (20:ℚ) ≤ m.log_rate then (0.35:ℚ) else 0) +
            (if (5:ℚ) ≤ m.sec_rate then (0.35:ℚ) else 0) +
            (if (2:ℚ) ≤ m.err_rate then (0.20:ℚ) else 0) +
            (if lowThrB m then (0.30:ℚ) else 0)) 1,
       (if (20:ℚ) ≤ m.log_rate then ["high_log_rate"] else []) ++
       (if (5:ℚ) ≤ m.sec_rate then ["high_security_rate"] else []) ++
       (if (2:ℚ) ≤ m.err_rate then ["high_error_rate"] else []) ++
       (if lowThrB m then ["low_throughput"] else [])) :=
  simple_score_eq m

/-- C2: for every metrics snapshot the score lies in [0, 1]. -/
theorem C2_score_in_unit (m : Metrics) :
    0 ≤ (simple_score m).1 ∧ (simple_score m).1 ≤ 1 := by
  rw [simple_score_eq]
  refine ⟨le_min ?_ (by norm_num), min_le_right _ _⟩
  split_ifs <;> norm_num

/-- C6: the score is non-decreasing in log_rate, sec_rate and err_rate with the
other fields fixed, and non-increasing in thr_avg among values below the 0.25
cutoff. -/
theorem C6_monotone :
    (∀ (m : Metrics) (r r' : ℚ), r ≤ r' →
      (simple_score { m with log_rate := r }).1 ≤ (simple_score { m with log_rate := r' }).1) ∧
    (∀ (m : Metrics) (r r' : ℚ), r ≤ r' →
      (simple_score { m with sec_rate := r }).1 ≤ (simple_score { m with sec_rate := r' }).1) ∧
    (∀ (m : Metrics) (r r' : ℚ), r ≤ r' →
      (simple_score { m with err_rate := r }).1 ≤ (simple_score { m with err_rate := r' }).1) ∧
    (∀ (m : Metrics) (t t' : ℚ), t ≤ t' → t' < 0.25 →
      (simple_score { m with thr_avg := some t' }).1 ≤
        (simple_score { m with thr_avg := some t }).1) := by
  refine ⟨?_, ?_, ?_, ?_⟩
  · intro m r r' h
    rw [simple_score_eq, simple_score_eq]
    refine min_le_min (add_le_add (add_le_add (add_le_add ?_ le_rfl) le_rfl) le_rfl) le_rfl
    split_ifs with h1 h2 <;> norm_num
    exact h2 (h1.trans h)
  · intro m r r' h
    rw [simple_score_eq, simple_score_eq]
    refine min_le_min (add_le_add (add_le_add (add_le_add le_rfl ?_) le_rfl) le_rfl) le_rfl
    split_ifs with h1 h2 <;> norm_num
    exact h2 (h1.trans h)
  · intro m r r' h
    rw [simple_score_eq, simple_score_eq]
    refine min_le_min (add_le_add (add_le_add le_rfl ?_) le_rfl) le_rfl
    split_ifs with h1 h2 <;> norm_num
    exact h2 (h1.trans h)
  · intro m t t' h h25
    rw [simple_score_eq, simple_score_eq]
    have h1 : lowThrB { m with thr_avg := some t } = true := by
      simp only [lowThrB, decide_eq_true_eq]
      linarith
    have h2 : lowThrB { m with thr_avg := some t' } = true := by
      simp only [lowThrB, decide_eq_true_eq]
      exact h25
    simp only [h1, h2, if_true]
    exact le_rfl

/-- Witness for C6 at concrete inputs. -/
theorem C6_monotone_witness :
    (simple_score { mZero with log_rate := 0 }).1 ≤
      (simple_score { mZero with log_rate := 21 }).1 ∧
    (simple_score { mZero with thr_avg := some 0.2 }).1 ≤
      (simple_score { mZero with thr_avg := some 0.1 }).1 :=
  ⟨C6_monotone.1 mZero 0 21 (by norm_num),
   C6_monotone.2.2.2 mZero 0.1 0.2 (by norm_num) (by norm_num)⟩

/-- C7: the reasons list is non-empty whenever the score is positive, and when
no rule condition holds the score is 0 and the reasons list is empty. -/
theorem C7_reasons (m : Metrics) :
    (0 < (simple_score m).1 → (simple_score m).2 ≠ []) ∧
    ((¬ (20:ℚ) ≤ m.log_rate ∧ ¬ (5:ℚ) ≤ m.sec_rate ∧ ¬ (2:ℚ) ≤ m.err_rate ∧
        lowThrB m = false) →
      (simple_score m).1 = 0 ∧ (simple_score m).2 = []) := by
  rw [simple_score_eq]
  constructor
  · split_ifs <;> simp
  · rintro ⟨h1, h2, h3, h4⟩
    simp [h1, h2, h3, h4]

/-- Witness for C7 at concrete inputs. -/
theorem C7_reasons_witness :
    (simple_score { mZero with log_rate := 20 }).2 ≠ [] ∧
    (simple_score mZero).1 = 0 ∧ (simple_score mZero).2 = [] :=
  ⟨(C7_reasons { mZero with log_rate := 20 }).1 (by norm_num [simple_score, mZero]),
   (C7_reasons mZero).2 (by norm_num [mZero, lowThrB])⟩

/-- Every character kept by the leading digit scan is a digit. -/
lemma takeDigits_digits (cs : List Char) : ∀ c ∈ (takeDigits cs).1, c.isDigit = true := by
  induction cs with
  | nil => simp [takeDigits]
  | cons c t ih =>
    by_cases hc : c.isDigit <;> simp [takeDigits, hc]
    intro d hd
    exact ih d hd

/-- The digit scan consumes a list made only of digits entirely. -/
lemma takeDigits_all (a : List Char) (ha : ∀ c ∈ a, c.isDigit = true) :
    takeDigits a = (a, []) := by
  induction a with
  | nil => simp [takeDigits]
  | cons c t ih =>
    have hc : c.isDigit = true := ha c (by simp)
    simp [takeDigits, hc, ih fun d hd => ha d (by simp [hd])]

/-- The digit scan of a digit run followed by a non-digit stops exactly at the
non-digit. -/
lemma takeDigits_append (a : List Char) (d : Char) (r : List Char)
    (ha : ∀ c ∈ a, c.isDigit = true) (hd : d.isDigit = false) :
    takeDigits (a ++ d :: r) = (a, d :: r) := by
  induction a with
  | nil => simp [takeDigits, hd]
  | cons c t ih =>
    have hc : c.isDigit = true := ha c (by simp)
    simp [takeDigits, hc, ih fun e he => ha e (by simp [he])]

/-- A digit character is neither sign character. -/
lemma digit_not_sign (c : Char) (h : c.isDigit = true) : c ≠ '-' ∧ c ≠ '+' := by
  constructor <;> rintro rfl <;> exact absurd h (by decide)

/-- float() succeeds on a non-empty pure digit run. -/
lemma pyFloat_digits (a : List Char) (hne : a ≠ []) (ha : ∀ c ∈ a, c.isDigit = true) :
    (pyFloat a).isSome = true := by
  cases a with
  | nil => exact absurd rfl hne
  | cons d t =>
    obtain ⟨h1, h2⟩ := digit_not_sign d (ha d (by simp))
    unfold pyFloat stripSign
    dsimp only
    rw [if_neg h1, if_neg h2]
    dsimp only
    unfold pyFloatMag
    rw [takeDigits_all (d :: t) ha]
    simp

/-- float() succeeds on a decimal literal with digits after the dot. -/
lemma pyFloat_point (a b : List Char) (ha : ∀ c ∈ a, c.isDigit = true)
    (hbne : b ≠ []) (hb : ∀ c ∈ b, c.isDigit = true) :
    (pyFloat (a ++ '.' :: b)).isSome = true := by
  have hdot : ('.' : Char).isDigit = false := by decide
  cases b with
  | nil => exact absurd rfl hbne
  | cons b1 bs =>
    have hmag : (pyFloatMag (a ++ '.' :: b1 :: bs)).isSome = true := by
      unfold pyFloatMag
      rw [takeDigits_append a '.' (b1 :: bs) ha hdot]
      dsimp only
      rw [if_pos rfl, takeDigits_all (b1 :: bs) hb]
      simp
    cases a with
    | nil =>
      unfold pyFloat stripSign
      dsimp only [List.nil_append]
      rw [if_neg (by decide : ¬ ('.' : Char) = '-'), if_neg (by decide : ¬ ('.' : Char) = '+')]
      dsimp only
      simpa using hmag
    | cons d t =>
      obtain ⟨h1, h2⟩ := digit_not_sign d (ha d (by simp))
      unfold pyFloat stripSign
      dsimp only [List.cons_append]
      rw [if_neg h1, if_neg h2]
      dsimp only
      simpa [List.cons_append] using hmag

/-- Any capture of the number fragment is a digit run or a dotted decimal with
digits after the dot. -/
lemma matchNumber_shape (cs g : List Char) (h : matchNumber cs = some g) :
    (g ≠ [] ∧ ∀ c ∈ g, c.isDigit = true) ∨
    (∃ a b, g = a ++ '.' :: b ∧ (∀ c ∈ a, c.isDigit = true) ∧ b ≠ [] ∧
      ∀ c ∈ b, c.isDigit = true) := by
  have hdig := takeDigits_digits cs
  unfold matchNumber at h
  rcases htd : takeDigits cs with ⟨a, rest⟩
  rw [htd] at h hdig
  dsimp only at hdig
  cases rest with
  | nil =>
    dsimp only at h
    by_cases ha : a = []
    · rw [if_pos ha] at h
      cases h
    · rw [if_neg ha] at h
      obtain rfl : a = g := Option.some.inj h
      exact Or.inl ⟨ha, hdig⟩
  | cons c rest2 =>
    dsimp only at h
    by_cases hdot : c = '.'
    · rw [if_pos hdot] at h
      have hdig2 := takeDigits_digits rest2
      rcases htd2 : takeDigits rest2 with ⟨b, rest3⟩
      rw [htd2] at h hdig2
      dsimp only at hdig2
      cases b with
      | nil =>
        dsimp only at h
        by_cases ha : a = []
        · rw [if_pos ha] at h
          cases h
        · rw [if_neg ha] at h
          obtain rfl : a = g := Option.some.inj h
          exact Or.inl ⟨ha, hdig⟩
      | cons b1 bs =>
        dsimp only at h
        obtain rfl : a ++ '.' :: b1 :: bs = g := Option.some.inj h
        exact Or.inr ⟨a, b1 :: bs, rfl, hdig, by simp, hdig2⟩
    · rw [if_neg hdot] at h
      by_cases ha : a = []
      · rw [if_pos ha] at h
        cases h
      · rw [if_neg ha] at h
        obtain rfl : a = g := Option.some.inj h
        exact Or.inl ⟨ha, hdig⟩

/-- Every capture returned by the regex search is produced by the number
fragment at some position. -/
lemma searchThroughput_shape (cs g : List Char) (h : searchThroughput cs = some g) :
    ∃ cs2, matchNumber cs2 = some g := by
  induction cs with
  | nil => cases h
  | cons c t ih =>
    simp only [searchThroughput] at h
    rcases hd : dropLit throughputPat (c :: t) with _ | rest
    · rw [hd] at h
      exact ih h
    · rw [hd] at h
      dsimp only at h
      rcases hm : matchNumber rest with _ | g2
      · rw [hm] at h
        exact ih h
      · rw [hm] at h
        dsimp only at h
        obtain rfl : g2 = g := Option.some.inj h
        exact ⟨rest, hm⟩

/-- C10: whenever RE_THROUGHPUT matches a line, converting the captured group
with float() succeeds, so the numeric-parse failure handler is unreachable and
no matched throughput value is discarded. -/
theorem C10_capture_parses (s : String) (g : List Char)
    (h : searchThroughput s.data = some g) : (pyFloat g).isSome = true := by
  obtain ⟨cs2, hm⟩ := searchThroughput_shape s.data g h
  rcases matchNumber_shape cs2 g hm with ⟨hne, hdig⟩ | ⟨a, b, rfl, ha, hbne, hb⟩
  · exact pyFloat_digits g hne hdig
  · exact pyFloat_point a b ha hbne hb

/-- Witness for C10 at a concrete line. -/
theorem C10_capture_parses_witness : (pyFloat ['7', '.', '5']).isSome = true :=
  C10_capture_parses "Throughput=7.5" ['7', '.', '5'] rfl

/-- The metrics fold in closed form: counts via countP and throughput values
via filterMap, for any starting accumulator. -/
lemma foldl_scanLine (lines : List (Int × String)) (s e : Nat) (t : List ℚ) :
    lines.foldl scanLine (s, e, t) =
      (s + lines.countP (fun p => isSecurityLine (pyLower p.2)),
       e + lines.countP (fun p => isErrorLine (pyLower p.2)),
       t ++ lines.filterMap (fun p => lineThroughput p.2)) := by
  induction lines generalizing s e t with
  | nil => simp
  | cons hd tl ih =>
    simp only [List.foldl_cons, scanLine]
    rw [ih]
    by_cases hs : isSecurityLine (pyLower hd.2) <;>
      by_cases he : isErrorLine (pyLower hd.2) <;>
        rcases ht : lineThroughput hd.2 with _ | v <;>
          simp [hs, he, ht, List.countP_cons] <;> omega

/-- C8 (amended): compute_metrics is the per-line closed form, with the regex
running on the original line text, and thr_avg is absent exactly when no line
yields a throughput value. -/
theorem C8_metrics_characterization (lines : List (Int × String)) :
    compute_metrics lines = compute_metrics_spec lines ∧
    ((compute_metrics lines).thr_avg = none ↔
      lines.filterMap (fun p => lineThroughput p.2) = []) := by
  have h := foldl_scanLine lines 0 0 []
  constructor
  · simp only [compute_metrics, compute_metrics_spec]
    rw [h]
    simp
  · simp only [compute_metrics]
    rw [h]
    dsimp only
    rw [List.nil_append]
    by_cases hthr : (lines.filterMap (fun p => lineThroughput p.2)).isEmpty = true
    · simp [hthr, List.isEmpty_iff.mp hthr]
    · simp only [if_neg hthr]
      simp only [List.isEmpty_iff] at hthr
      simp [hthr]

/-- C8 counterexample: on the line Throughput=0.30 the claim-worded computer
finds no throughput value, because the lower-cased text never matches the
case-sensitive pattern, while the code records one from the original line. -/
theorem C8_lowercase_counterexample :
    (compute_metrics_claimC8 [(0, "Throughput=0.30")]).thr_avg = none ∧
    (compute_metrics [(0, "Throughput=0.30")]).thr_avg ≠ none := by
  refine ⟨rfl, ?_⟩
  have hsearch : searchThroughput "Throughput=0.30".data = some ['0', '.', '3', '0'] := rfl
  have hparse : (pyFloat ['0', '.', '3', '0']).isSome = true :=
    pyFloat_point ['0'] ['3', '0'] (by decide) (by decide) (by decide)
  obtain ⟨v, hv⟩ := Option.isSome_iff_exists.mp hparse
  have hline : lineThroughput "Throughput=0.30" = some v := by
    simp [lineThroughput, hsearch, hv]
  have h := foldl_scanLine [((0:Int), "Throughput=0.30")] 0 0 []
  simp only [compute_metrics]
  rw [h]
  simp [hline]

/-- Metrics of the empty window are the zero snapshot. -/
lemma compute_metrics_nil : compute_metrics [] = mZero := by
  simp [compute_metrics, mZero]

/-- The zero snapshot scores 0 with no reasons. -/
lemma simple_score_mZero : simple_score mZero = (0, []) := by
  rw [simple_score_eq]
  norm_num [mZero, lowThrB]

/-- Bind of a success value in the Except monad. -/
lemma exceptBind_ok {ε α β : Type} (a : α) (f : α → Except ε β) :
    (Except.ok a : Except ε α) >>= f = f a := rfl

/-- C9 (amended): absent fields are tolerated and give empty sequences: a
missing data or result field yields the empty line list, a stream without a
values field contributes nothing, and metrics of the empty list are the zero
snapshot. -/
theorem C9_absent_result_empty (kvs : List (String × Json))
    (h : kvs.lookup "data" = none ∨
      ∃ kvs2, kvs.lookup "data" = some (.obj kvs2) ∧ kvs2.lookup "result" = none) :
    extract_lines (.obj kvs) = .ok [] ∧
    extract_lines (.obj [("data", .obj [("result", .arr [.obj []])])]) = .ok [] ∧
    compute_metrics [] = mZero := by
  refine ⟨?_, rfl, compute_metrics_nil⟩
  rcases h with h | ⟨kvs2, h1, h2⟩
  · have hd : pyGet (Json.obj kvs) "data" (Json.obj []) = Except.ok (Json.obj []) := by
      simp [pyGet, h]
    unfold extract_lines
    rw [hd]
    rfl
  · have hd : pyGet (Json.obj kvs) "data" (Json.obj []) = Except.ok (Json.obj kvs2) := by
      simp [pyGet, h1]
    have hr : pyGet (Json.obj kvs2) "result" (Json.arr []) = Except.ok (Json.arr []) := by
      simp [pyGet, h2]
    unfold extract_lines
    rw [hd, exceptBind_ok]
    dsimp only
    rw [hr, exceptBind_ok]
    rfl

/-- Witness for C9 on the empty response object. -/
theorem C9_absent_result_empty_witness :
    extract_lines (.obj []) = .ok [] ∧
    extract_lines (.obj [("data", .obj [("result", .arr [.obj []])])]) = .ok [] ∧
    compute_metrics [] = mZero :=
  C9_absent_result_empty [] (Or.inl rfl)

/-- C9 counterexample: extraction raises on a response that is not a mapping:
a top-level JSON array makes the first dict.get raise AttributeError, so
extraction is not total on backend response values. -/
theorem C9_raises_counterexample :
    extract_lines (.arr []) = .error "AttributeError: get" := rfl

/-- A failing try block has produced no datagram. -/
lemma try_body_fail_events (env : CycleEnv) (t : ℚ) (evs : List Event) (e : String)
    (h : try_body env t = (evs, some e)) : evs.countP isDatagram = 0 := by
  unfold try_body at h
  cases hf : env.fetchResult with
  | error e0 =>
    rw [hf] at h
    dsimp only at h
    injection h with h1 h2
    subst h1
    rfl
  | ok data =>
    rw [hf] at h
    dsimp only at h
    cases he : extract_lines data with
    | error e0 =>
      rw [he] at h
      dsimp only at h
      injection h with h1 h2
      subst h1
      rfl
    | ok jlines =>
      rw [he] at h
      dsimp only at h
      cases hl : linesToStr jlines with
      | error e0 =>
        rw [hl] at h
        dsimp only at h
        injection h with h1 h2
        subst h1
        rfl
      | ok lines =>
        rw [hl] at h
        dsimp only at h
        by_cases hge : (simple_score (compute_metrics lines)).1 ≥ t
        · rw [if_pos hge] at h
          cases hs : send_syslog env (alertMsg (compute_metrics lines)
              (simple_score (compute_metrics lines)).1
              (simple_score (compute_metrics lines)).2) with
          | ok line =>
            rw [hs] at h
            dsimp only at h
            injection h with h1 h2
            cases h2
          | error e0 =>
            rw [hs] at h
            dsimp only at h
            injection h with h1 h2
            subst h1
            rfl
        · rw [if_neg hge] at h
          injection h with h1 h2
          cases h2

/-- C3 (amended): when the try block of a cycle raises and the error-alert
transmission itself succeeds, the cycle logs the error, emits exactly one
datagram carrying the fixed medium-severity content, ends without an uncaught
exception, and the loop proceeds to the next cycle. -/
theorem C3_error_cycle (env : CycleEnv) (t : ℚ) (evs : List Event) (e : String)
    (h : try_body env t = (evs, some e))
    (hsend : env.sendOk (syslogLine env (errAlertMsg e)) = true) :
    run_cycle env t =
      (evs ++ [Event.logged ("ERROR: " ++ e),
               Event.datagram (syslogLine env (errAlertMsg e))], none) ∧
    (run_cycle env t).1.countP isDatagram = 1 ∧
    ∀ (envs : Nat → CycleEnv) (n : Nat), envs n = env →
      (run_loop envs t n).2 = none → (run_loop envs t (n + 1)).2 = none := by
  have hs : send_syslog env (errAlertMsg e) = .ok (syslogLine env (errAlertMsg e)) := by
    unfold send_syslog
    dsimp only
    rw [if_pos hsend]
  have hc : run_cycle env t =
      (evs ++ [Event.logged ("ERROR: " ++ e),
               Event.datagram (syslogLine env (errAlertMsg e))], none) := by
    unfold run_cycle
    rw [h]
    dsimp only
    rw [hs]
  refine ⟨hc, ?_, ?_⟩
  · rw [hc]
    simp [List.countP_append, try_body_fail_events env t evs e h, isDatagram]
  · intro envs n hn hprev
    have : run_loop envs t (n + 1) =
        ((run_loop envs t n).1 ++ (run_cycle (envs n) t).1, (run_cycle (envs n) t).2) := by
      rcases hrl : run_loop envs t n with ⟨evs0, r⟩
      rw [hrl] at hprev
      dsimp only at hprev
      subst hprev
      simp [run_loop, hrl]
    rw [this, hn, hc]

/-- Witness for C3 at a concrete failing fetch with a working transport. -/
theorem C3_error_cycle_witness :
    run_cycle envC3ok SCORE_THRESHOLD =
      ([] ++ [Event.logged ("ERROR: " ++ "read timeout"),
              Event.datagram (syslogLine envC3ok (errAlertMsg "read timeout"))], none) ∧
    (run_cycle envC3ok SCORE_THRESHOLD).1.countP isDatagram = 1 ∧
    ∀ (envs : Nat → CycleEnv) (n : Nat), envs n = envC3ok →
      (run_loop envs SCORE_THRESHOLD n).2 = none →
      (run_loop envs SCORE_THRESHOLD (n + 1)).2 = none :=
  C3_error_cycle envC3ok SCORE_THRESHOLD [] "read timeout" rfl rfl

/-- C3 counterexample: with a failing fetch and a socket error on the
error-alert datagram, the cycle ends in an uncaught exception, so the loop
does terminate on a single cycle's error. -/
theorem C3_crash_counterexample :
    (run_cycle envC3 SCORE_THRESHOLD).2 = some "socket error" ∧
    (run_loop (fun _ => envC3) SCORE_THRESHOLD 1).2 = some "socket error" :=
  ⟨rfl, rfl⟩

/-- C4: the code contradicts the claim: send_syslog has no handler around
sendto, so a socket error propagates out of the emitter, and when it is the
error-alert send that raises, the exception escapes the cycle handler and
ends the scheduler loop. -/
theorem C4_transmission_bug :
    send_syslog envC4 (errAlertMsg "connection refused") = .error "socket error" ∧
    (run_cycle envC4 SCORE_THRESHOLD).2 = some "socket error" :=
  ⟨rfl, rfl⟩

/-- A positive score is at least 0.20, so in particular at least 0.10. -/
lemma score_lower_bound (m : Metrics) (h0 : 0 < (simple_score m).1) :
    (1:ℚ)/10 ≤ (simple_score m).1 := by
  rw [simple_score_eq] at h0 ⊢
  split_ifs at h0 ⊢ <;> norm_num [min_def] at h0 ⊢

/-- The clamp bounds every score by 1. -/
lemma score_le_one (m : Metrics) : (simple_score m).1 ≤ 1 := by
  rw [simple_score_eq]
  exact min_le_right _ _

/-- C5: in a cycle whose try block succeeds, exactly one alert datagram is
emitted when the score reaches the threshold and none otherwise; a positive
score is at least 0.10, so threshold 0.10 fires on every positive score; and
the score never exceeds 1, so threshold 1.01 never fires. -/
theorem C5_threshold_iff (env : CycleEnv) (t : ℚ) (evs : List Event)
    (h : try_body env t = (evs, none)) :
    ∃ ls, cycleLines env = some ls ∧
      ((evs.countP isDatagram = 1) ↔ t ≤ (simple_score (compute_metrics ls)).1) ∧
      ((evs.countP isDatagram = 0) ↔ (simple_score (compute_metrics ls)).1 < t) ∧
      (0 < (simple_score (compute_metrics ls)).1 →
        (1:ℚ)/10 ≤ (simple_score (compute_metrics ls)).1) ∧
      (simple_score (compute_metrics ls)).1 ≤ 1 ∧
      (t = 101/100 → evs.countP isDatagram = 0) := by
  unfold try_body at h
  cases hf : env.fetchResult with
  | error e0 =>
    rw [hf] at h
    dsimp only at h
    injection h with h1 h2
    cases h2
  | ok data =>
    rw [hf] at h
    dsimp only at h
    cases he : extract_lines data with
    | error e0 =>
      rw [he] at h
      dsimp only at h
      injection h with h1 h2
      cases h2
    | ok jlines =>
      rw [he] at h
      dsimp only at h
      cases hl : linesToStr jlines with
      | error e0 =>
        rw [hl] at h
        dsimp only at h
        injection h with h1 h2
        cases h2
      | ok lines =>
        rw [hl] at h
        dsimp only at h
        refine ⟨lines, ?_, ?_⟩
        · unfold cycleLines
          rw [hf]
          dsimp only
          rw [he]
          dsimp only
          rw [hl]
          rfl
        by_cases hge : (simple_score (compute_metrics lines)).1 ≥ t
        · rw [if_pos hge] at h
          cases hs : send_syslog env (alertMsg (compute_metrics lines)
              (simple_score (compute_metrics lines)).1
              (simple_score (compute_metrics lines)).2) with
          | error e0 =>
            rw [hs] at h
            dsimp only at h
            injection h with h1 h2
            cases h2
          | ok line =>
            rw [hs] at h
            dsimp only at h
            injection h with h1 h2
            subst h1
            refine ⟨?_, ?_, score_lower_bound _, score_le_one _, ?_⟩
            · constructor
              · intro _
                exact hge
              · intro _
                simp [List.countP_cons, isDatagram]
            · constructor
              · intro hc
                simp [List.countP_cons, isDatagram] at hc
              · intro hlt
                exact absurd hlt (not_lt.mpr hge)
            · intro ht
              exfalso
              have hle := score_le_one (compute_metrics lines)
              rw [ht] at hge
              linarith
        · rw [if_neg hge] at h
          injection h with h1 h2
          subst h1
          refine ⟨?_, ?_, score_lower_bound _, score_le_one _, ?_⟩
          · constructor
            · intro hc
              simp [List.countP_cons, isDatagram] at hc
            · intro hle
              exact absurd hle hge
          · constructor
            · intro _
              exact lt_of_not_ge hge
            · intro _
              simp [List.countP_cons, isDatagram]
          · intro _
            simp [List.countP_cons, isDatagram]

/-- The successful empty-window cycle, evaluated. -/
lemma try_body_envW :
    try_body envW SCORE_THRESHOLD =
      ([Event.logged (statusLine envW.isoNow mZero 0 [])], none) := by
  unfold try_body
  rw [show envW.fetchResult = .ok jsonEmptyResp from rfl]
  dsimp only
  rw [show extract_lines jsonEmptyResp = .ok [] from rfl]
  dsimp only
  rw [show linesToStr [] = .ok [] from rfl]
  dsimp only
  rw [compute_metrics_nil, simple_score_mZero]
  dsimp only
  rw [if_neg (by norm_num [SCORE_THRESHOLD])]

/-- Witness for C5 at the successful empty-window cycle. -/
theorem C5_threshold_iff_witness :
    ∃ ls, cycleLines envW = some ls ∧
      (([Event.logged (statusLine envW.isoNow mZero 0 [])].countP isDatagram = 1) ↔
        SCORE_THRESHOLD ≤ (simple_score (compute_metrics ls)).1) ∧
      (([Event.logged (statusLine envW.isoNow mZero 0 [])].countP isDatagram = 0) ↔
        (simple_score (compute_metrics ls)).1 < SCORE_THRESHOLD) ∧
      (0 < (simple_score (compute_metrics ls)).1 →
        (1:ℚ)/10 ≤ (simple_score (compute_metrics ls)).1) ∧
      (simple_score (compute_metrics ls)).1 ≤ 1 ∧
      (SCORE_THRESHOLD = 101/100 →
        [Event.logged (statusLine envW.isoNow mZero 0 [])].countP isDatagram = 0) :=
  C5_threshold_iff envW SCORE_THRESHOLD _ try_body_envW

end FtthAi
